import Mathlib

/-!
Verification of the axis-resolution / coordinate-mapping / retained-command
pipeline of MatPlotOpenCV (`src/figure.cpp`, `include/axes.h`,
`include/plot_command.h`, `include/color.h`).

C++ `double` arithmetic is modelled by exact rational arithmetic (`ℚ`);
decimal literals such as `1e-3` become the exact rationals they denote.
`std::numeric_limits<double>::infinity()` seeds of the bounds tracker are
modelled by `⊤ : WithTop ℚ` / `⊥ : WithBot ℚ`.  Pixel canvases are modelled
by the deterministic draw-command stream handed to OpenCV, since the
rasterizer itself is an external collaborator.
-/

set_option maxRecDepth 8000

namespace mpocv

/-- Margin constants from `Figure` (figure.h): `kMarginLeft = 60`. -/
def kMarginLeft : ℤ := 60

/-- `kMarginRight = 20`. -/
def kMarginRight : ℤ := 20

/-- `kMarginTop = 40`. -/
def kMarginTop : ℤ := 40

/-- `kMarginBottom = 60`. -/
def kMarginBottom : ℤ := 60

/-- `Figure::plot_width(): width_ - kMarginLeft - kMarginRight`. -/
def plot_width (width : ℤ) : ℤ := width - kMarginLeft - kMarginRight

/-- `Figure::plot_height(): height_ - kMarginTop - kMarginBottom`. -/
def plot_height (height : ℤ) : ℤ := height - kMarginTop - kMarginBottom

/-- C++ `static_cast<int>` on a double: truncation toward zero. -/
def cppTrunc (q : ℚ) : ℤ := if 0 ≤ q then ⌊q⌋ else ⌈q⌉

/-- `struct Axes` (axes.h): visible data rectangle plus policy flags.
Field defaults follow the in-class initializers (`pad_frac{ 0.05 }`,
`autoscale{ true }`, `equal_scale{ false }`, `grid{ false }`). -/
structure Axes where
  xmin : ℚ := 0
  xmax : ℚ := 1
  ymin : ℚ := 0
  ymax : ℚ := 1
  pad_frac : ℚ := 5/100
  autoscale : Bool := true
  equal_scale : Bool := false
  grid : Bool := false
deriving DecidableEq

/-- `struct Bounds` (figure.h): running data bounding box, seeded with
`+inf` mins and `-inf` maxes, modelled as `⊤ : WithTop ℚ` and
`⊥ : WithBot ℚ`. -/
structure Bounds where
  xmin : WithTop ℚ := ⊤
  xmax : WithBot ℚ := ⊥
  ymin : WithTop ℚ := ⊤
  ymax : WithBot ℚ := ⊥
deriving DecidableEq

/-- `Bounds::expand(x, y)`: widen each side with `std::min` / `std::max`. -/
def Bounds.expand (b : Bounds) (x y : ℚ) : Bounds where
  xmin := min b.xmin (x : WithTop ℚ)
  xmax := max b.xmax (x : WithBot ℚ)
  ymin := min b.ymin (y : WithTop ℚ)
  ymax := max b.ymax (y : WithBot ℚ)

/-- `Bounds::valid(): std::isfinite(xmin)` — true once a point was absorbed. -/
def Bounds.valid (b : Bounds) : Bool := decide (b.xmin ≠ ⊤)

/-- `Figure::ensure_nonzero_span(lo, hi)` (figure.cpp): when `lo == hi`,
perturb to `lo - eps, hi + eps` with
`eps = (|lo| > 1e-12) ? |lo|*1e-3 : 1e-3`; returns the updated pair. -/
def ensure_nonzero_span (lo hi : ℚ) : ℚ × ℚ :=
  if lo = hi then
    let eps : ℚ := if |lo| > 1/10^12 then |lo| * (1/10^3) else 1/10^3
    (lo - eps, hi + eps)
  else (lo, hi)

/-- `Figure::fix_ranges(a)`: apply `ensure_nonzero_span` to both axes. -/
def fix_ranges (a : Axes) : Axes :=
  let px := ensure_nonzero_span a.xmin a.xmax
  let py := ensure_nonzero_span a.ymin a.ymax
  { a with xmin := px.1, xmax := px.2, ymin := py.1, ymax := py.2 }

/-- Step 1 of `Figure::render` (figure.cpp): when autoscaling, copy the
bounds-tracker box if valid, else fall back to the unit square.  The
`untop'`/`unbot'` defaults are never reached for a box built from finite
points, mirroring that the C++ only reads the fields under `valid()`. -/
def autoscale_step (a : Axes) (b : Bounds) : Axes :=
  if a.autoscale then
    if b.valid then
      { a with xmin := b.xmin.untop' 0, xmax := b.xmax.unbot' 0,
               ymin := b.ymin.untop' 0, ymax := b.ymax.unbot' 0 }
    else
      { a with xmin := 0, xmax := 1, ymin := 0, ymax := 1 }
  else a

/-- Step 1b of `Figure::render`: optional symmetric padding by
`pad_frac × span` on each side, applied only when `pad_frac > 0`. -/
def pad_step (a : Axes) : Axes :=
  if a.pad_frac > 0 then
    let dx := (a.xmax - a.xmin) * a.pad_frac
    let dy := (a.ymax - a.ymin) * a.pad_frac
    { a with xmin := a.xmin - dx, xmax := a.xmax + dx,
             ymin := a.ymin - dy, ymax := a.ymax + dy }
  else a

/-- Step 2 of `Figure::render`: equal-scale adjustment — recenter both axes
on their midpoints to the common span `max(xrange, yrange)`. -/
def equal_scale_step (a : Axes) : Axes :=
  if a.equal_scale then
    let xrange := a.xmax - a.xmin
    let yrange := a.ymax - a.ymin
    let span := max xrange yrange
    let xmid := (a.xmin + a.xmax) / 2
    let ymid := (a.ymin + a.ymax) / 2
    { a with xmin := xmid - span / 2, xmax := xmid + span / 2,
             ymin := ymid - span / 2, ymax := ymid + span / 2 }
  else a

/-- Axis resolution at the start of `Figure::render` (figure.cpp):
autoscale, padding, `fix_ranges`, equal-scale, `fix_ranges` — in that
order. -/
def resolve_axes (a : Axes) (b : Bounds) : Axes :=
  fix_ranges (equal_scale_step (fix_ranges (pad_step (autoscale_step a b))))

/-- `Figure::data_to_pixel(x, y)` (figure.cpp):
`px = kMarginLeft + int(xf*plot_width + 0.5)` and
`py = height - kMarginBottom - int(yf*plot_height + 0.5)`, where the
`int` casts truncate toward zero. -/
def data_to_pixel (width height : ℤ) (a : Axes) (x y : ℚ) : ℤ × ℤ :=
  let xf := (x - a.xmin) / (a.xmax - a.xmin)
  let yf := (y - a.ymin) / (a.ymax - a.ymin)
  (kMarginLeft + cppTrunc (xf * (plot_width width : ℚ) + 1/2),
   height - kMarginBottom - cppTrunc (yf * (plot_height height : ℚ) + 1/2))

/-- The coordinate mapper as the spec's §4.4 words it:
`(marginLeft + round(xf·plotWidth), height - marginBottom - round(yf·plotHeight))`,
with `round` the usual rounding to the nearest integer
(`round q = ⌊q + 1/2⌋`).  Kept separate from `data_to_pixel` so the two can
be compared. -/
def spec_data_to_pixel (width height : ℤ) (a : Axes) (x y : ℚ) : ℤ × ℤ :=
  let xf := (x - a.xmin) / (a.xmax - a.xmin)
  let yf := (y - a.ymin) / (a.ymax - a.ymin)
  (kMarginLeft + round (xf * (plot_width width : ℚ)),
   height - kMarginBottom - round (yf * (plot_height height : ℚ)))

/-- `std::floor(std::log10(q))` for positive `q`, computed exactly on `ℚ`
by repeated scaling (fuel-bounded; the fuel of `1000` used below covers
every magnitude relevant to the library's double-precision inputs). -/
def floorLog10 : ℕ → ℚ → ℤ
  | 0, _ => 0
  | fuel + 1, q =>
    if q < 1 then floorLog10 fuel (q * 10) - 1
    else if q < 10 then 0
    else floorLog10 fuel (q / 10) + 1

/-- `Figure::nice_num(range, round)` (figure.cpp): snap a positive range to
a "nice" value `nf · 10^expv` with `nf ∈ {1, 2, 5, 10}`; non-positive
ranges are treated as `1.0` first. -/
def nice_num (range : ℚ) (rnd : Bool) : ℚ :=
  let range := if range ≤ 0 then 1 else range
  let expv : ℤ := floorLog10 1000 range
  let f : ℚ := range / (10 : ℚ) ^ expv
  let nf : ℚ :=
    if rnd then
      if f < 3/2 then 1 else if f < 3 then 2 else if f < 7 then 5 else 10
    else
      if f ≤ 1 then 1 else if f ≤ 2 then 2 else if f ≤ 5 then 5 else 10
  nf * (10 : ℚ) ^ expv

/-- `struct TickInfo` (figure.h): tick locations and formatted labels. -/
structure TickInfo where
  locs : List ℚ := []
  labels : List String := []
deriving DecidableEq

/-- The label formatting in `Figure::make_ticks`
(`std::fixed << std::setprecision(prec)`), modelled by exact rational
rounding to `prec` decimals. -/
def formatFixed (prec : ℕ) (v : ℚ) : String :=
  let scaled : ℤ := round (v * 10 ^ prec)
  let sign := if scaled < 0 then "-" else ""
  let n := scaled.natAbs
  if prec = 0 then sign ++ toString n
  else
    let fracStr := toString (n % 10 ^ prec)
    let fracStr := String.mk (List.replicate (prec - fracStr.length) '0') ++ fracStr
    sign ++ toString (n / 10 ^ prec) ++ "." ++ fracStr

/-- Number of iterations of the emission loop in `Figure::make_ticks`:
`for (v = graph_lo; v <= graph_hi + 0.5*step; v += step)` visits exactly
the `v = graph_lo + k·step` with
`k ≤ (graph_hi - graph_lo)/step + 1/2` (for positive `step`, in exact
arithmetic). -/
def tickCount (graph_lo graph_hi step : ℚ) : ℕ :=
  (⌊(graph_hi - graph_lo) / step + 1/2⌋ + 1).toNat

/-- `Figure::make_ticks(lo, hi, target)` (figure.cpp): two-level nice-number
step selection, grid snapping, then emission of the grid multiples — with
grid points outside `[lo - 1e-12, hi + 1e-12]` suppressed by the
`if (v < lo - 1e-12 || v > hi + 1e-12) continue;` filter. -/
def make_ticks (lo hi : ℚ) (target : ℤ) : TickInfo :=
  let range := nice_num (hi - lo) false
  let step := nice_num (range / ((target : ℚ) - 1)) true
  let graph_lo := ⌊lo / step⌋ * step
  let graph_hi := ⌈hi / step⌉ * step
  let raw := (List.range (tickCount graph_lo graph_hi step)).map
    (fun k => graph_lo + (k : ℚ) * step)
  let locs := raw.filter (fun v => !(decide (v < lo - 1/10^12) || decide (v > hi + 1/10^12)))
  { locs := locs
    labels := locs.map (formatFixed (if step < 1 then 1 else 0)) }

/-- `struct Color` (color.h): an RGB triple of bytes. -/
structure Color where
  r : ℕ := 0
  g : ℕ := 0
  b : ℕ := 0
deriving DecidableEq

/-- `Color::Blue()`. -/
def Color.Blue : Color := ⟨0, 0, 255⟩

/-- `Color::Red()`. -/
def Color.Red : Color := ⟨255, 0, 0⟩

/-- `Color::Green()`. -/
def Color.Green : Color := ⟨0, 255, 0⟩

/-- `Color::Black()`. -/
def Color.Black : Color := ⟨0, 0, 0⟩

/-- `Color::White()`. -/
def Color.White : Color := ⟨255, 255, 255⟩

/-- `enum class CmdType` (plot_command.h). -/
inductive CmdType where
  | Line
  | Scatter
  | Text
  | Circle
  | RectLTRB
  | RectXYWH
  | RotatedRect
  | Polygon
  | Ellipse
deriving DecidableEq

/-- `struct LineData` (plot_command.h). -/
structure LineData where
  x : List ℚ := []
  y : List ℚ := []
  thickness : ℚ := 1
deriving DecidableEq

/-- `struct ScatterData` (plot_command.h). -/
structure ScatterData where
  x : List ℚ := []
  y : List ℚ := []
  marker_size : ℚ := 4
deriving DecidableEq

/-- `struct ShapeStyle` (plot_command.h). -/
structure ShapeStyle where
  line_color : Color := Color.Black
  thickness : ℚ := 1
  fill_color : Color := Color.White
  fill_alpha : ℚ := 1
deriving DecidableEq

/-- `struct PolygonData` (plot_command.h). -/
structure PolygonData where
  x : List ℚ := []
  y : List ℚ := []
  style : ShapeStyle := {}
deriving DecidableEq

/-- `struct PlotCommand` (plot_command.h): union-like container — the
active variant is selected by `type`.  Payload fields of variants not
exercised by the retained-command claims (text, circle, rectangles,
rotated rect, ellipse) carry their geometry through the same pattern and
are elided here; `type`, `color`, `label` and the polyline payloads are
modelled in full. -/
structure PlotCommand where
  type : CmdType := CmdType.Line
  color : Color := Color.Blue
  label : String := ""
  line : LineData := {}
  scatter : ScatterData := {}
  polygon : PolygonData := {}
deriving DecidableEq

/-- The ordered draw-command stream a render pass sends to the OpenCV
rasterizer; this determines the pixel canvas byte-for-byte, because the
external drawing primitives are deterministic functions of it. -/
structure RenderOutput where
  width : ℤ
  height : ℤ
  axes : Axes
  xticks : TickInfo
  yticks : TickInfo
  cmds : List PlotCommand
  legend : List PlotCommand
  title : String
  xlabel : String
  ylabel : String
deriving DecidableEq

/-- `class Figure` state: canvas dimensions, retained commands, axes,
labels, dirty flag (`dirty_{ true }`), bounds tracker, and legend state.
`canvas = none` models the initial blank white buffer. -/
structure Figure where
  width : ℤ
  height : ℤ
  cmds : List PlotCommand := []
  axes : Axes := {}
  title : String := ""
  xlabel : String := ""
  ylabel : String := ""
  dirty : Bool := true
  data_bounds : Bounds := {}
  legend_on : Bool := false
  legend_loc : String := ""
  canvas : Option RenderOutput := none
deriving DecidableEq

/-- `Figure::Figure(w, h)`: fresh figure with a blank canvas. -/
def mkFigure (w h : ℤ) : Figure := { width := w, height := h }

/-- `Figure::set_xlim(lo, hi)`: set the x limits, disable autoscale. -/
def Figure.set_xlim (f : Figure) (lo hi : ℚ) : Figure :=
  { f with axes := { f.axes with xmin := lo, xmax := hi, autoscale := false },
           dirty := true }

/-- `Figure::set_ylim(lo, hi)`: set the y limits, disable autoscale. -/
def Figure.set_ylim (f : Figure) (lo hi : ℚ) : Figure :=
  { f with axes := { f.axes with ymin := lo, ymax := hi, autoscale := false },
           dirty := true }

/-- `Figure::axis_tight()`: zero padding. -/
def Figure.axis_tight (f : Figure) : Figure :=
  { f with axes := { f.axes with pad_frac := 0 }, dirty := true }

/-- `Figure::axis_pad(frac)`: padding fraction, clamped to `≥ 0`. -/
def Figure.axis_pad (f : Figure) (frac : ℚ) : Figure :=
  { f with axes := { f.axes with pad_frac := max 0 frac }, dirty := true }

/-- `Figure::autoscale(on)`. -/
def Figure.autoscale (f : Figure) (o : Bool) : Figure :=
  { f with axes := { f.axes with autoscale := o }, dirty := true }

/-- `Figure::equal_scale(on)`. -/
def Figure.equal_scale (f : Figure) (o : Bool) : Figure :=
  { f with axes := { f.axes with equal_scale := o }, dirty := true }

/-- `Figure::grid(on)`. -/
def Figure.grid (f : Figure) (o : Bool) : Figure :=
  { f with axes := { f.axes with grid := o }, dirty := true }

/-- `Figure::title(t)`. -/
def Figure.set_title (f : Figure) (t : String) : Figure :=
  { f with title := t, dirty := true }

/-- `Figure::xlabel(t)`. -/
def Figure.set_xlabel (f : Figure) (t : String) : Figure :=
  { f with xlabel := t, dirty := true }

/-- `Figure::ylabel(t)`. -/
def Figure.set_ylabel (f : Figure) (t : String) : Figure :=
  { f with ylabel := t, dirty := true }

/-- `Figure::legend(on, loc)`. -/
def Figure.legend (f : Figure) (o : Bool) (loc : String) : Figure :=
  { f with legend_on := o, legend_loc := loc, dirty := true }

/-- `Figure::expand_bounds(xs, ys)`: absorb each point into the bounds
tracker.  The C++ loop runs over `xs.size()` indices reading `ys[i]`;
pairing by `zip` models exactly the in-bounds reads. -/
def expand_bounds (b : Bounds) (xs ys : List ℚ) : Bounds :=
  (xs.zip ys).foldl (fun acc p => acc.expand p.1 p.2) b

/-- `Figure::add_line_command(x, y, c, thickness, label)` (figure.h /
figure.cpp): unconditionally build a `Line` command, absorb the points,
append, mark dirty — there is no length check. -/
def Figure.add_line_command (f : Figure) (x y : List ℚ) (c : Color)
    (thickness : ℚ) (label : String) : Figure :=
  let cmd : PlotCommand :=
    { type := CmdType.Line, color := c, label := label,
      line := { x := x, y := y, thickness := thickness } }
  { f with data_bounds := expand_bounds f.data_bounds x y,
           cmds := f.cmds ++ [cmd], dirty := true }

/-- `Figure::plot(x, y, c, thickness, label)`: delegates to
`add_line_command`. -/
def Figure.plot (f : Figure) (x y : List ℚ) (c : Color) (thickness : ℚ)
    (label : String) : Figure :=
  f.add_line_command x y c thickness label

/-- `Figure::add_scatter_command(x, y, c, marker_size, label)`:
unconditionally build a `Scatter` command, absorb the points, append,
mark dirty — no length check. -/
def Figure.add_scatter_command (f : Figure) (x y : List ℚ) (c : Color)
    (marker_size : ℚ) (label : String) : Figure :=
  let cmd : PlotCommand :=
    { type := CmdType.Scatter, color := c, label := label,
      scatter := { x := x, y := y, marker_size := marker_size } }
  { f with data_bounds := expand_bounds f.data_bounds x y,
           cmds := f.cmds ++ [cmd], dirty := true }

/-- `Figure::scatter(x, y, c, marker_size, label)`: delegates to
`add_scatter_command`. -/
def Figure.scatter (f : Figure) (x y : List ℚ) (c : Color) (marker_size : ℚ)
    (label : String) : Figure :=
  f.add_scatter_command x y c marker_size label

/-- `Figure::polygon(x, y, style, label)` (figure.cpp): early-return (no
append, no dirty) when `x.size() != y.size() || x.empty()`; otherwise
absorb the vertices, append a `Polygon` command, mark dirty. -/
def Figure.polygon (f : Figure) (x y : List ℚ) (style : ShapeStyle)
    (label : String) : Figure :=
  if x.length ≠ y.length ∨ x = [] then f
  else
    let cmd : PlotCommand :=
      { type := CmdType.Polygon, label := label,
        polygon := { x := x, y := y, style := style } }
    { f with data_bounds := expand_bounds f.data_bounds x y,
             cmds := f.cmds ++ [cmd], dirty := true }

/-- The legend collection loop in `Figure::render` step 7:
`for (const auto& c : cmds_) if (!c.label.empty()) items.push_back(&c)`. -/
def legendItems (cmds : List PlotCommand) : List PlotCommand :=
  cmds.filter (fun c => !(c.label == ""))

/-- `Figure::render()` (figure.cpp): immediate return when not dirty; else
resolve the axes, generate ticks, redraw the canvas from the retained
commands (modelled as the deterministic `RenderOutput` stream, legend
entries included when the legend is on), and clear the dirty flag. -/
def Figure.render (f : Figure) : Figure :=
  if f.dirty = false then f
  else
    let a := resolve_axes f.axes f.data_bounds
    let out : RenderOutput :=
      { width := f.width, height := f.height, axes := a,
        xticks := make_ticks a.xmin a.xmax 6,
        yticks := make_ticks a.ymin a.ymax 6,
        cmds := f.cmds,
        legend := if f.legend_on then legendItems f.cmds else [],
        title := f.title, xlabel := f.xlabel, ylabel := f.ylabel }
    { f with axes := a, canvas := some out, dirty := false }

/-- Legend labels of the last rendered canvas (empty for a blank canvas). -/
def canvasLegendLabels (f : Figure) : List String :=
  match f.canvas with
  | some out => out.legend.map PlotCommand.label
  | none => []

/-- A bounds-tracker state is well formed when, once valid, its box is
ordered; every state reachable through `Bounds.expand` satisfies this. -/
def BoundsWF (b : Bounds) : Prop :=
  b.valid = true →
    b.xmin.untop' 0 ≤ b.xmax.unbot' 0 ∧ b.ymin.untop' 0 ≤ b.ymax.unbot' 0

/-!  Helper lemmas about span resolution. -/

theorem ensure_fst_lt_snd {lo hi : ℚ} (h : lo ≤ hi) :
    (ensure_nonzero_span lo hi).1 < (ensure_nonzero_span lo hi).2 := by
  unfold ensure_nonzero_span
  by_cases heq : lo = hi
  · subst heq
    rw [if_pos rfl]
    dsimp only
    split_ifs with habs
    · have h1 : (0:ℚ) < |lo| := lt_trans (by norm_num) habs
      have h2 : (0:ℚ) < |lo| * (1/10^3) := by positivity
      linarith
    · have h2 : (0:ℚ) < 1/10^3 := by norm_num
      linarith
  · rw [if_neg heq]
    exact lt_of_le_of_ne h heq

theorem ensure_eq_of_lt {lo hi : ℚ} (h : lo < hi) :
    ensure_nonzero_span lo hi = (lo, hi) := by
  unfold ensure_nonzero_span
  simp [ne_of_lt h]

theorem fix_ranges_lt {a : Axes} (hx : a.xmin ≤ a.xmax) (hy : a.ymin ≤ a.ymax) :
    (fix_ranges a).xmin < (fix_ranges a).xmax ∧
      (fix_ranges a).ymin < (fix_ranges a).ymax := by
  unfold fix_ranges
  exact ⟨ensure_fst_lt_snd hx, ensure_fst_lt_snd hy⟩

theorem fix_ranges_of_lt {a : Axes} (hx : a.xmin < a.xmax) (hy : a.ymin < a.ymax) :
    fix_ranges a = a := by
  unfold fix_ranges
  rw [ensure_eq_of_lt hx, ensure_eq_of_lt hy]

theorem equal_scale_step_lt {a : Axes} (hx : a.xmin < a.xmax) (hy : a.ymin < a.ymax) :
    (equal_scale_step a).xmin < (equal_scale_step a).xmax ∧
      (equal_scale_step a).ymin < (equal_scale_step a).ymax := by
  unfold equal_scale_step
  by_cases he : a.equal_scale
  · have hspan : 0 < max (a.xmax - a.xmin) (a.ymax - a.ymin) :=
      lt_of_lt_of_le (by linarith) (le_max_left _ _)
    rw [if_pos he]
    dsimp only
    constructor <;> linarith [hspan]
  · simp [he, hx, hy]

theorem autoscale_step_le {a : Axes} {b : Bounds}
    (hx : a.xmin ≤ a.xmax) (hy : a.ymin ≤ a.ymax) (hb : BoundsWF b) :
    (autoscale_step a b).xmin ≤ (autoscale_step a b).xmax ∧
      (autoscale_step a b).ymin ≤ (autoscale_step a b).ymax := by
  unfold autoscale_step
  by_cases hauto : a.autoscale
  · by_cases hv : b.valid
    · simpa [hauto, hv] using hb hv
    · simp [hauto, hv]
  · simp [hauto, hx, hy]

theorem pad_step_le {a : Axes} (hp : 0 ≤ a.pad_frac)
    (hx : a.xmin ≤ a.xmax) (hy : a.ymin ≤ a.ymax) :
    (pad_step a).xmin ≤ (pad_step a).xmax ∧
      (pad_step a).ymin ≤ (pad_step a).ymax := by
  unfold pad_step
  by_cases hpos : a.pad_frac > 0
  · rw [if_pos hpos]
    dsimp only
    constructor <;>
      nlinarith [mul_nonneg (sub_nonneg.mpr hx) hp, mul_nonneg (sub_nonneg.mpr hy) hp]
  · simp [hpos, hx, hy]

theorem resolve_axes_lt {a : Axes} {b : Bounds}
    (hx : a.xmin ≤ a.xmax) (hy : a.ymin ≤ a.ymax)
    (hp : 0 ≤ a.pad_frac) (hb : BoundsWF b) :
    (resolve_axes a b).xmin < (resolve_axes a b).xmax ∧
      (resolve_axes a b).ymin < (resolve_axes a b).ymax := by
  unfold resolve_axes
  have h1 := autoscale_step_le hx hy hb
  have hp1 : 0 ≤ (autoscale_step a b).pad_frac := by
    unfold autoscale_step
    by_cases hauto : a.autoscale
    · by_cases hv : b.valid <;> simp [hauto, hv, hp]
    · simp [hauto, hp]
  have h2 := pad_step_le hp1 h1.1 h1.2
  have h3 := fix_ranges_lt h2.1 h2.2
  have h4 := equal_scale_step_lt h3.1 h3.2
  rw [fix_ranges_of_lt h4.1 h4.2]
  exact h4

/-- C1 (counterexample): the claim "for every input axis rectangle the
resolved rectangle satisfies `xmax > xmin`" fails when the caller supplies
inverted limits.  After `set_xlim(1, 0)` (so `xmin = 1 > xmax = 0`,
autoscale disabled, default `pad_frac = 0.05`), axis resolution leaves the
rectangle inverted: neither padding nor `ensure_nonzero_span` (which only
reacts to `lo == hi`) repairs `xmin > xmax`. -/
theorem C1_counterexample :
    ¬ ((resolve_axes { xmin := 1, xmax := 0, autoscale := false } {}).xmin <
       (resolve_axes { xmin := 1, xmax := 0, autoscale := false } {}).xmax) := by
  norm_num [resolve_axes, autoscale_step, pad_step, equal_scale_step, fix_ranges,
    ensure_nonzero_span, Bounds.valid]

/-- C1 (amended): for every input axis rectangle with ordered (possibly
degenerate, `xmin == xmax` included) limits, nonnegative padding fraction,
and a well-formed bounds tracker, the axis-resolution steps at the start
of a render pass produce `xmax > xmin` and `ymax > ymin` strictly. -/
theorem C1_resolved_spans_positive (a : Axes) (b : Bounds)
    (hx : a.xmin ≤ a.xmax) (hy : a.ymin ≤ a.ymax)
    (hp : 0 ≤ a.pad_frac) (hb : BoundsWF b) :
    (resolve_axes a b).xmin < (resolve_axes a b).xmax ∧
      (resolve_axes a b).ymin < (resolve_axes a b).ymax :=
  resolve_axes_lt hx hy hp hb

/-- C1 witness: the amended theorem applied to the degenerate rectangle
`xmin = xmax = 0`, `ymin = 2 ≤ ymax = 5` with the empty bounds tracker. -/
theorem C1_witness :
    (resolve_axes { xmin := 0, xmax := 0, ymin := 2, ymax := 5,
                    autoscale := false } {}).xmin <
      (resolve_axes { xmin := 0, xmax := 0, ymin := 2, ymax := 5,
                      autoscale := false } {}).xmax :=
  (C1_resolved_spans_positive
    { xmin := 0, xmax := 0, ymin := 2, ymax := 5, autoscale := false } {}
    (by norm_num) (by norm_num) (by norm_num)
    (fun hv => absurd hv (by decide))).1

/-- C4 (counterexample): the claim's perturbation width
`eps = max(|min|·1e-3, 1e-3)` disagrees with the code at `min = max = 1/2`:
`ensure_nonzero_span` uses `eps = |1/2|·1e-3 = 1/2000` (since
`|1/2| > 1e-12`), not `max(1/2000, 1/1000) = 1/1000`. -/
theorem C4_counterexample :
    ensure_nonzero_span (1/2) (1/2) ≠
      (1/2 - max (|(1/2 : ℚ)| * (1/10^3)) (1/10^3),
       1/2 + max (|(1/2 : ℚ)| * (1/10^3)) (1/10^3)) := by
  norm_num [ensure_nonzero_span, Prod.ext_iff, abs_of_pos]

/-- C4 (amended): for each axis whose interval satisfies `max == min`, the
interval is perturbed symmetrically to `[min - eps, max + eps]` with
`eps = |min|·1e-3` when `|min| > 1e-12` and `eps = 1e-3` otherwise; for
every such degenerate input the resulting span is strictly positive. -/
theorem C4_degenerate_span_perturbed (lo hi : ℚ) (h : lo = hi) :
    ensure_nonzero_span lo hi =
      (lo - (if |lo| > 1/10^12 then |lo| * (1/10^3) else 1/10^3),
       hi + (if |lo| > 1/10^12 then |lo| * (1/10^3) else 1/10^3)) ∧
      (ensure_nonzero_span lo hi).1 < (ensure_nonzero_span lo hi).2 := by
  constructor
  · unfold ensure_nonzero_span
    rw [if_pos h]
  · exact ensure_fst_lt_snd (le_of_eq h)

/-- C4 witness: the amended theorem applied at `lo = hi = 1/2`, where the
perturbed interval is `[999/2000, 1001/2000]`. -/
theorem C4_witness :
    ensure_nonzero_span (1/2) (1/2) =
      (1/2 - (if |(1/2 : ℚ)| > 1/10^12 then |(1/2 : ℚ)| * (1/10^3) else 1/10^3),
       1/2 + (if |(1/2 : ℚ)| > 1/10^12 then |(1/2 : ℚ)| * (1/10^3) else 1/10^3)) ∧
      (ensure_nonzero_span (1/2) (1/2)).1 < (ensure_nonzero_span (1/2) (1/2)).2 :=
  C4_degenerate_span_perturbed (1/2) (1/2) rfl

/-- The concrete equal-scale configuration used to exhibit C2: a 640×480
figure with `xlim = ylim = [0, 1]`, zero padding, autoscale off and
`equal_scale` on. -/
def equalScaleExample : Axes :=
  { xmin := 0, xmax := 1, ymin := 0, ymax := 1, pad_frac := 0, autoscale := false, equal_scale := true }

/-- C2 (code bug): the claim (and the code's own doc comment for
`equal_scale`: "one unit in the x-axis is the same length as one unit in
the y-axis") requires `plot_width/(xmax-xmin) = plot_height/(ymax-ymin)`
after resolution, but `Figure::render` only equalizes the *data spans*.
For a default 640×480 figure with `xlim = ylim = [0,1]`, zero padding and
`equal_scale` on, the resolved spans are equal, yet one data unit maps to
`plot_width = 560` pixels horizontally and `plot_height = 380` pixels
vertically. -/
theorem C2_equal_scale_pixels_differ :
    ((resolve_axes equalScaleExample {}).xmax - (resolve_axes equalScaleExample {}).xmin =
      (resolve_axes equalScaleExample {}).ymax - (resolve_axes equalScaleExample {}).ymin) ∧
    (plot_width 640 : ℚ) /
        ((resolve_axes equalScaleExample {}).xmax - (resolve_axes equalScaleExample {}).xmin) ≠
      (plot_height 480 : ℚ) /
        ((resolve_axes equalScaleExample {}).ymax - (resolve_axes equalScaleExample {}).ymin) := by
  norm_num [equalScaleExample, resolve_axes, autoscale_step, pad_step, equal_scale_step,
    fix_ranges, ensure_nonzero_span, plot_width, plot_height, kMarginLeft, kMarginRight,
    kMarginTop, kMarginBottom]

/-- `cppTrunc` (truncation toward zero) is monotone. -/
theorem cppTrunc_mono {q1 q2 : ℚ} (h : q1 ≤ q2) : cppTrunc q1 ≤ cppTrunc q2 := by
  unfold cppTrunc
  split_ifs with h1 h2 h2
  · exact Int.floor_le_floor h
  · exact absurd (le_trans h1 h) h2
  · have hc : ⌈q1⌉ ≤ 0 := Int.ceil_le.mpr (by exact_mod_cast le_of_not_le h1)
    have hf : (0:ℤ) ≤ ⌊q2⌋ := Int.floor_nonneg.mpr h2
    omega
  · exact Int.ceil_le_ceil h

/-- C3 (counterexample): for a point left of the axis rectangle the
claimed formula `marginLeft + round(xf·plotWidth)` disagrees with the
code: at `x = -0.003` on `[0,1]` with `plot_width = 560`,
`xf·plotWidth = -1.68`, and `static_cast<int>(-1.68 + 0.5)` truncates to
`-1` (pixel 59) while rounding gives `-2` (pixel 58). -/
theorem C3_counterexample :
    data_to_pixel 640 480 { autoscale := false } (-3/1000) 0 ≠
      spec_data_to_pixel 640 480 { autoscale := false } (-3/1000) 0 := by
  have hceil : ⌈(-(59/50) : ℚ)⌉ = -1 := by
    rw [Int.ceil_eq_iff] <;> norm_num
  norm_num [data_to_pixel, spec_data_to_pixel, cppTrunc, plot_width, plot_height,
    kMarginLeft, kMarginRight, kMarginTop, kMarginBottom, Prod.ext_iff, round_eq,
    hceil]

/-- C3 (amended): for every data point inside the resolved axis rectangle
(and every rectangle with positive spans and nonnegative plot dimensions)
the coordinate mapper returns exactly
`(marginLeft + round((x-xmin)/(xmax-xmin)·plotWidth),
  height - marginBottom - round((y-ymin)/(ymax-ymin)·plotHeight))`;
moreover — for all data `y` values, in or out of range — the pixel y
coordinate is antitone in the data y value (the Y-axis flip). -/
theorem C3_data_to_pixel_formula (w h : ℤ) (a : Axes) (x y : ℚ)
    (hx1 : a.xmin ≤ x) (hx2 : x ≤ a.xmax) (hy1 : a.ymin ≤ y) (hy2 : y ≤ a.ymax)
    (hxs : a.xmin < a.xmax) (hys : a.ymin < a.ymax)
    (hw : 0 ≤ plot_width w) (hh : 0 ≤ plot_height h) :
    data_to_pixel w h a x y = spec_data_to_pixel w h a x y ∧
      ∀ y1 y2 : ℚ, y1 ≤ y2 →
        (data_to_pixel w h a x y2).2 ≤ (data_to_pixel w h a x y1).2 := by
  have hwq : (0:ℚ) ≤ (plot_width w : ℚ) := by exact_mod_cast hw
  have hhq : (0:ℚ) ≤ (plot_height h : ℚ) := by exact_mod_cast hh
  have hxspan : (0:ℚ) < a.xmax - a.xmin := by linarith
  have hyspan : (0:ℚ) < a.ymax - a.ymin := by linarith
  constructor
  · have hxf : (0:ℚ) ≤ (x - a.xmin) / (a.xmax - a.xmin) :=
      div_nonneg (by linarith) (le_of_lt hxspan)
    have hyf : (0:ℚ) ≤ (y - a.ymin) / (a.ymax - a.ymin) :=
      div_nonneg (by linarith) (le_of_lt hyspan)
    have hvx : (0:ℚ) ≤ (x - a.xmin) / (a.xmax - a.xmin) * (plot_width w : ℚ) + 1/2 := by
      have := mul_nonneg hxf hwq
      linarith
    have hvy : (0:ℚ) ≤ (y - a.ymin) / (a.ymax - a.ymin) * (plot_height h : ℚ) + 1/2 := by
      have := mul_nonneg hyf hhq
      linarith
    unfold data_to_pixel spec_data_to_pixel cppTrunc
    dsimp only
    rw [if_pos hvx, if_pos hvy, round_eq, round_eq]
  · intro y1 y2 hy12
    unfold data_to_pixel
    dsimp only
    have hstep : ((y1 - a.ymin) / (a.ymax - a.ymin)) * (plot_height h : ℚ) + 1/2 ≤
        ((y2 - a.ymin) / (a.ymax - a.ymin)) * (plot_height h : ℚ) + 1/2 := by
      have hq : (y1 - a.ymin) / (a.ymax - a.ymin) ≤ (y2 - a.ymin) / (a.ymax - a.ymin) :=
        (div_le_div_iff_of_pos_right hyspan).mpr (by linarith)
      nlinarith
    have := cppTrunc_mono hstep
    omega

/-- C3 witness: the amended theorem applied on the unit square for a
640×480 canvas at the in-range point `(1/2, 1/2)`, plus the Y-flip
instance `y = 1/4` versus `y = 3/4`. -/
theorem C3_witness :
    data_to_pixel 640 480 { autoscale := false } (1/2) (1/2) =
      spec_data_to_pixel 640 480 { autoscale := false } (1/2) (1/2) ∧
      (data_to_pixel 640 480 { autoscale := false } (1/2) (3/4)).2 ≤
        (data_to_pixel 640 480 { autoscale := false } (1/2) (1/4)).2 :=
  ⟨(C3_data_to_pixel_formula 640 480 { autoscale := false } (1/2) (1/2)
      (by norm_num) (by norm_num) (by norm_num) (by norm_num) (by norm_num)
      (by norm_num) (by norm_num [plot_width, kMarginLeft, kMarginRight])
      (by norm_num [plot_height, kMarginTop, kMarginBottom])).1,
   (C3_data_to_pixel_formula 640 480 { autoscale := false } (1/2) (1/2)
      (by norm_num) (by norm_num) (by norm_num) (by norm_num) (by norm_num)
      (by norm_num) (by norm_num [plot_width, kMarginLeft, kMarginRight])
      (by norm_num [plot_height, kMarginTop, kMarginBottom])).2
     (1/4) (3/4) (by norm_num)⟩

/-- C5 (confirmed): for every interval `lo < hi`, every tick location
emitted by `make_ticks(lo, hi)` lies within `[lo, hi]` up to the `1e-12`
tolerance — grid multiples outside `[lo - 1e-12, hi + 1e-12]` are
suppressed by the emission filter. -/
theorem C5_ticks_clipped (lo hi : ℚ) (h : lo < hi) :
    (make_ticks lo hi 6).locs.Forall
      (fun v => lo - 1/10^12 ≤ v ∧ v ≤ hi + 1/10^12) := by
  rw [List.forall_iff_forall_mem]
  intro v hv
  unfold make_ticks at hv
  simp only [List.mem_filter, Bool.not_eq_eq_eq_not, Bool.not_true,
    Bool.or_eq_false_iff, decide_eq_false_iff_not, not_lt] at hv
  exact ⟨hv.2.1, hv.2.2⟩

/-- C5 witness: the theorem instantiated on the concrete interval
`[0, 1]`. -/
theorem C5_witness :
    (make_ticks 0 1 6).locs.Forall
      (fun v => (0:ℚ) - 1/10^12 ≤ v ∧ v ≤ 1 + 1/10^12) :=
  C5_ticks_clipped 0 1 (by norm_num)

/-- C6 (counterexample): `plot` does **not** ignore malformed geometry —
with mismatched coordinate lengths (`x = [0]`, `y = []`) the line command
is still appended to the retained list (`add_line_command` has no length
check), contradicting the claim that every geometry-bearing append
operation silently drops malformed input. -/
theorem C6_counterexample :
    ((mkFigure 640 480).plot [0] [] Color.Blue 1 "p").cmds.length = 1 ∧
      [(0:ℚ)].length ≠ ([] : List ℚ).length := by
  constructor
  · simp [mkFigure, Figure.plot, Figure.add_line_command]
  · simp

/-- C6 (amended): only `polygon` validates its geometry — a polygon call
with mismatched coordinate-sequence lengths or an empty vertex list is
silently ignored (the figure is left completely unchanged, no failure
signaled); `plot` and `scatter` append their command unconditionally,
even for mismatched lengths. -/
theorem C6_malformed_geometry (f : Figure) (x y : List ℚ)
    (st : ShapeStyle) (lbl : String) (h : x.length ≠ y.length ∨ x = []) :
    f.polygon x y st lbl = f ∧
      ∀ (c : Color) (t : ℚ),
        (f.plot x y c t lbl).cmds.length = f.cmds.length + 1 ∧
        (f.scatter x y c t lbl).cmds.length = f.cmds.length + 1 := by
  constructor
  · unfold Figure.polygon
    rw [if_pos h]
  · intro c t
    constructor <;>
      simp [Figure.plot, Figure.add_line_command, Figure.scatter,
        Figure.add_scatter_command]

/-- C6 witness: the amended theorem at the malformed input `x = [0]`,
`y = []` on a fresh figure. -/
theorem C6_witness :
    (mkFigure 640 480).polygon [0] [] {} "q" = mkFigure 640 480 ∧
      ((mkFigure 640 480).plot [0] [] Color.Red 1 "q").cmds.length =
        (mkFigure 640 480).cmds.length + 1 :=
  ⟨(C6_malformed_geometry (mkFigure 640 480) [0] [] {} "q"
      (Or.inl (by norm_num))).1,
   ((C6_malformed_geometry (mkFigure 640 480) [0] [] {} "q"
      (Or.inl (by norm_num))).2 Color.Red 1).1⟩

/-- When both spans agree, the equal-scale recentering is the identity:
`xmid - span/2 = xmin` and likewise on every side. -/
theorem equal_scale_step_of_eq_span {a : Axes}
    (hspan : a.xmax - a.xmin = a.ymax - a.ymin) : equal_scale_step a = a := by
  unfold equal_scale_step
  split_ifs with he
  · have hmax : max (a.xmax - a.xmin) (a.ymax - a.ymin) = a.xmax - a.xmin := by
      rw [hspan, max_self]
    cases a
    simp only [Axes.mk.injEq] at hspan hmax ⊢
    rw [hmax]
    refine ⟨by linarith, by linarith, by linarith, by linarith, trivial, trivial, trivial, trivial⟩
  · rfl

/-- C7 (counterexample): rendering a zero-command figure with autoscale
enabled and the default `pad_frac = 0.05` resolves the x axis to
`[-1/20, 21/20]`, not to the unit square: the `[0,1]` fallback is
installed *before* padding, and padding then widens it. -/
theorem C7_counterexample :
    ((mkFigure 640 480).render).axes.xmin = -1/20 ∧
      ¬(((mkFigure 640 480).render).axes.xmin = 0 ∧
        ((mkFigure 640 480).render).axes.xmax = 1) := by
  norm_num [mkFigure, Figure.render, resolve_axes, autoscale_step, pad_step,
    equal_scale_step, fix_ranges, ensure_nonzero_span, Bounds.valid]

/-- For a dirty figure, the axes after `render` are the resolved axes;
stated once so later proofs never have to unfold the render record. -/
theorem render_axes_of_dirty (f : Figure) (hd : f.dirty = true) :
    (f.render).axes = resolve_axes f.axes f.data_bounds := by
  unfold Figure.render
  rw [hd]
  rfl

/-- The unit square expanded by `p'` on each side, with the given
equal-scale flag — the rectangle the empty-figure fallback resolves to. -/
def paddedUnitSquare (q : ℚ) (e : Bool) : Axes :=
  { xmin := -q, xmax := 1 + q, ymin := -q, ymax := 1 + q,
    pad_frac := q, equal_scale := e }

/-- C7 (amended): rendering a figure that holds zero commands with
autoscale enabled resolves the axis rectangle to the unit square expanded
by the padding fraction on each side — `[-p, 1+p] × [-p, 1+p]` for
`axis_pad(p)` with `p ≥ 0` (the unit square exactly when the padding is
zero), never failing and never leaving the infinite seed bounds in place;
this holds whether or not equal-scale is enabled. -/
theorem C7_empty_figure_fallback (w h : ℤ) (p : ℚ) (e : Bool) :
    ((((mkFigure w h).axis_pad p).equal_scale e).render).axes.xmin = -(max 0 p) ∧
      ((((mkFigure w h).axis_pad p).equal_scale e).render).axes.xmax = 1 + max 0 p ∧
      ((((mkFigure w h).axis_pad p).equal_scale e).render).axes.ymin = -(max 0 p) ∧
      ((((mkFigure w h).axis_pad p).equal_scale e).render).axes.ymax = 1 + max 0 p ∧
      ((((mkFigure w h).axis_pad p).equal_scale e)).cmds = [] := by
  have hp0 : 0 ≤ max 0 p := le_max_left 0 p
  have haxes : ((((mkFigure w h).axis_pad p).equal_scale e).render).axes =
      resolve_axes { pad_frac := max 0 p, equal_scale := e } {} :=
    render_axes_of_dirty _ rfl
  have hpadded : pad_step (autoscale_step { pad_frac := max 0 p, equal_scale := e } {}) =
      paddedUnitSquare (max 0 p) e := by
    have hstep : autoscale_step { pad_frac := max 0 p, equal_scale := e } {} =
        { pad_frac := max 0 p, equal_scale := e } := by
      simp [autoscale_step, Bounds.valid]
    rw [hstep]
    unfold pad_step paddedUnitSquare
    rcases lt_or_eq_of_le hp0 with hpos | hzero
    · rw [if_pos (by simpa using hpos)]
      simp only [Axes.mk.injEq]
      refine ⟨by ring, by ring, by ring, by ring, trivial, trivial, trivial, trivial⟩
    · rw [if_neg (by simp [← hzero])]
      simp only [Axes.mk.injEq]
      refine ⟨by rw [← hzero]; norm_num, by rw [← hzero]; norm_num,
        by rw [← hzero]; norm_num, by rw [← hzero]; norm_num, trivial, trivial, trivial,
        trivial⟩
  have hlt : (paddedUnitSquare (max 0 p) e).xmin < (paddedUnitSquare (max 0 p) e).xmax := by
    unfold paddedUnitSquare
    dsimp only
    linarith
  have hlty : (paddedUnitSquare (max 0 p) e).ymin < (paddedUnitSquare (max 0 p) e).ymax := by
    unfold paddedUnitSquare
    dsimp only
    linarith
  have hfix : fix_ranges (paddedUnitSquare (max 0 p) e) = paddedUnitSquare (max 0 p) e :=
    fix_ranges_of_lt hlt hlty
  have heq : equal_scale_step (paddedUnitSquare (max 0 p) e) = paddedUnitSquare (max 0 p) e :=
    equal_scale_step_of_eq_span rfl
  have hres : resolve_axes { pad_frac := max 0 p, equal_scale := e } {} =
      paddedUnitSquare (max 0 p) e := by
    unfold resolve_axes
    rw [hpadded, hfix, heq, hfix]
  rw [haxes, hres]
  exact ⟨rfl, rfl, rfl, rfl, rfl⟩

/-- C8 (confirmed): render is idempotent — a render with a clear dirty
flag returns immediately; a render clears the flag; rendering twice with
no mutation in between changes nothing (so the canvas output is
byte-identical, the canvas being the deterministic draw stream); and
every mutating call sets the dirty flag. -/
theorem C8_render_idempotent :
    (∀ f : Figure,
      (f.dirty = false → f.render = f) ∧
      (f.render).dirty = false ∧
      f.render.render = f.render ∧
      (f.render.render).canvas = (f.render).canvas) ∧
    (∀ (f : Figure) (lo hi t : ℚ) (xs ys : List ℚ) (c : Color) (s : String) (o : Bool),
      (f.set_xlim lo hi).dirty = true ∧ (f.set_ylim lo hi).dirty = true ∧
      (f.autoscale o).dirty = true ∧ (f.equal_scale o).dirty = true ∧
      (f.grid o).dirty = true ∧ (f.axis_pad t).dirty = true ∧
      f.axis_tight.dirty = true ∧ (f.set_title s).dirty = true ∧
      (f.set_xlabel s).dirty = true ∧ (f.set_ylabel s).dirty = true ∧
      (f.legend o s).dirty = true ∧ (f.plot xs ys c t s).dirty = true ∧
      (f.scatter xs ys c t s).dirty = true) := by
  constructor
  · intro f
    have hclean : ∀ g : Figure, g.dirty = false → g.render = g := by
      intro g hg
      unfold Figure.render
      rw [if_pos hg]
    have hdone : (f.render).dirty = false := by
      unfold Figure.render
      by_cases hd : f.dirty = false
      · rw [if_pos hd]
        exact hd
      · rw [if_neg hd]
    exact ⟨hclean f, hdone, hclean _ hdone, by rw [hclean _ hdone]⟩
  · intro f lo hi t xs ys c s o
    exact ⟨rfl, rfl, rfl, rfl, rfl, rfl, rfl, rfl, rfl, rfl, rfl, rfl, rfl⟩

/-- C8 witness: the idempotence conjunct applied to a concrete fresh
figure — its second render is the identity. -/
theorem C8_witness :
    ((mkFigure 640 480).render).render = (mkFigure 640 480).render :=
  (C8_render_idempotent.1 (mkFigure 640 480)).2.2.1

/-- For a dirty figure, the legend labels drawn during `render` are the
labels of `legendItems` when the legend is on, and nothing otherwise. -/
theorem render_legend_of_dirty (f : Figure) (hd : f.dirty = true) :
    canvasLegendLabels (f.render) =
      (if f.legend_on then legendItems f.cmds else []).map PlotCommand.label := by
  unfold Figure.render
  rw [hd]
  rfl

/-- C9 (confirmed): with the legend enabled, the rendered legend entries
are exactly the retained commands with non-empty label, one entry per such
command, in insertion order, with no de-duplication — in particular three
commands labelled `"a"`, `""`, `"b"` render exactly the two entries
`"a"`, `"b"` in that order. -/
theorem C9_legend_entries :
    (∀ cs : List PlotCommand,
      (legendItems cs).map PlotCommand.label =
        (cs.map PlotCommand.label).filter (fun s => !(s == ""))) ∧
    canvasLegendLabels (((((mkFigure 640 480).plot [0, 1] [0, 1] Color.Blue 1
        "a").plot [0, 1] [1, 0] Color.Red 1 "").plot [1, 2] [2, 3] Color.Green 1
        "b").legend true "northEast").render = ["a", "b"] := by
  constructor
  · intro cs
    unfold legendItems
    induction cs with
    | nil => rfl
    | cons c tl ih =>
      cases hc : (c.label == "") with
      | true => simp [List.filter_cons, hc, ih]
      | false => simp [List.filter_cons, hc, ih]
  · rw [render_legend_of_dirty _ rfl]
    rfl

/-- One `Bounds::expand` always yields a valid (finite-`xmin`) box. -/
theorem expand_valid (b : Bounds) (x y : ℚ) : (b.expand x y).valid = true := by
  unfold Bounds.valid Bounds.expand
  simp only [decide_eq_true_eq]
  exact ne_top_of_le_ne_top (WithTop.coe_ne_top) (min_le_right _ _)

/-- Folding further `expand` calls only widens each side of the box. -/
theorem foldl_expand_le (pts : List (ℚ × ℚ)) (b : Bounds) :
    (pts.foldl (fun acc q => acc.expand q.1 q.2) b).xmin ≤ b.xmin ∧
      b.xmax ≤ (pts.foldl (fun acc q => acc.expand q.1 q.2) b).xmax ∧
      (pts.foldl (fun acc q => acc.expand q.1 q.2) b).ymin ≤ b.ymin ∧
      b.ymax ≤ (pts.foldl (fun acc q => acc.expand q.1 q.2) b).ymax := by
  induction pts generalizing b with
  | nil => exact ⟨le_refl _, le_refl _, le_refl _, le_refl _⟩
  | cons q tl ih =>
    simp only [List.foldl_cons]
    obtain ⟨h1, h2, h3, h4⟩ := ih (b.expand q.1 q.2)
    exact ⟨le_trans h1 (min_le_left _ _), le_trans (le_max_left _ _) h2,
      le_trans h3 (min_le_left _ _), le_trans (le_max_left _ _) h4⟩

/-- Validity survives any further sequence of `expand` calls. -/
theorem foldl_expand_valid (pts : List (ℚ × ℚ)) (b : Bounds) (hb : b.valid = true) :
    (pts.foldl (fun acc q => acc.expand q.1 q.2) b).valid = true := by
  induction pts generalizing b with
  | nil => exact hb
  | cons q tl ih =>
    simp only [List.foldl_cons]
    exact ih _ (expand_valid b q.1 q.2)

/-- C10 (confirmed): the bounds tracker only grows — after `expand(x, y)`
the box contains `(x, y)`; every side only widens (`xmin` non-increasing,
`xmax` non-decreasing, likewise for y); the box still contains `(x, y)`
after any further sequence of `expand` calls; and `valid()` never reverts
from true to false (indeed it is true after any `expand`). -/
theorem C10_bounds_grow_monotone (b : Bounds) (x y : ℚ) (pts : List (ℚ × ℚ)) :
    ((b.expand x y).xmin ≤ ((x : ℚ) : WithTop ℚ) ∧
      ((x : ℚ) : WithBot ℚ) ≤ (b.expand x y).xmax ∧
      (b.expand x y).ymin ≤ ((y : ℚ) : WithTop ℚ) ∧
      ((y : ℚ) : WithBot ℚ) ≤ (b.expand x y).ymax) ∧
    ((b.expand x y).xmin ≤ b.xmin ∧ b.xmax ≤ (b.expand x y).xmax ∧
      (b.expand x y).ymin ≤ b.ymin ∧ b.ymax ≤ (b.expand x y).ymax) ∧
    ((pts.foldl (fun acc q => acc.expand q.1 q.2) (b.expand x y)).xmin ≤
        ((x : ℚ) : WithTop ℚ) ∧
      ((x : ℚ) : WithBot ℚ) ≤
        (pts.foldl (fun acc q => acc.expand q.1 q.2) (b.expand x y)).xmax ∧
      (pts.foldl (fun acc q => acc.expand q.1 q.2) (b.expand x y)).ymin ≤
        ((y : ℚ) : WithTop ℚ) ∧
      ((y : ℚ) : WithBot ℚ) ≤
        (pts.foldl (fun acc q => acc.expand q.1 q.2) (b.expand x y)).ymax) ∧
    (b.valid = true → (b.expand x y).valid = true) ∧
    (pts.foldl (fun acc q => acc.expand q.1 q.2) (b.expand x y)).valid = true := by
  obtain ⟨h1, h2, h3, h4⟩ := foldl_expand_le pts (b.expand x y)
  refine ⟨⟨min_le_right _ _, le_max_right _ _, min_le_right _ _, le_max_right _ _⟩,
    ⟨min_le_left _ _, le_max_left _ _, min_le_left _ _, le_max_left _ _⟩,
    ⟨le_trans h1 (min_le_right _ _), le_trans (le_max_right _ _) h2,
      le_trans h3 (min_le_right _ _), le_trans (le_max_right _ _) h4⟩,
    fun _ => expand_valid b x y,
    foldl_expand_valid pts _ (expand_valid b x y)⟩

/-- A concrete already-valid bounds box used to witness C10. -/
def sampleBounds : Bounds :=
  { xmin := ((2:ℚ) : WithTop ℚ), xmax := ((3:ℚ) : WithBot ℚ),
    ymin := ((4:ℚ) : WithTop ℚ), ymax := ((5:ℚ) : WithBot ℚ) }

/-- C10 witness: the theorem applied to a concrete valid box, the point
`(1, 2)` and one further absorbed point — the expanded box is still
valid. -/
theorem C10_witness : ((sampleBounds.expand 1 2).valid = true) :=
  (C10_bounds_grow_monotone sampleBounds 1 2 [((6:ℚ), (7:ℚ))]).2.2.2.1 (by decide)

end mpocv
